import Mathlib

/-!
Verification development for the desktop application's Auto-Attendance Engine.

This file shallowly embeds the engine's pure decision logic from the
TypeScript source (`src/electron/services/storage.service.ts`,
`src/electron/services/config.service.ts` (session service part),
`src/electron/main.ts`) into Lean and proves properties about it.

Modelling conventions:
* JavaScript `undefined` / a missing object key is `Option.none`; a present
  value is `Option.some`.
* A *partial update* object distinguishes "key absent" from "key present with
  value `undefined`" (both matter for JS object spread), so update fields have
  type `Option (Option α)`.
* `JSON.stringify` drops keys whose value is `undefined`, and `JSON.parse`
  of the result yields the same typed projection; hence serialising and
  re-parsing a storage record is the identity on the typed representation.
* Thrown JS exceptions are modelled with `Except Unit`; a `try/catch` becomes
  a `match` on the `Except` value.
* `Date` values are modelled as natural numbers: milliseconds since the local
  epoch, with fixed-length days (`setHours(0,0,0,0)` becomes rounding down to
  a multiple of `msPerDay`).  `Date.prototype.toISOString` is modelled by an
  injective encoding `isoOf` with parser `parseTimestamp` (`new Date(s)`
  applied to a stored encoded timestamp).
-/

namespace AutoAttendance

/-! ### Data model of `storage.service.ts` -/

/-- `lastNetworkUsed` object stored in `AutoAttendanceStorage`
(`storage.service.ts` lines 14-19).  The TS field `type` is called
`typeField` here because `type` is reserved in Lean. -/
structure NetworkUsed where
  typeField : String
  ssid : Option String := none
  bssid : Option String := none
  macAddress : Option String := none
deriving DecidableEq, Repr

/-- `AutoAttendanceStorage` (`storage.service.ts` lines 11-21).
`lastTriggerAttempts` (a JS `Record<string, string>`) is modelled as an
association list. -/
structure AutoAttendanceStorage where
  lastCheckInAttemptTimestamp : Option String := none
  lastCheckInSessionId : Option String := none
  lastNetworkUsed : Option NetworkUsed := none
  lastTriggerAttempts : Option (List (String × String)) := none
deriving DecidableEq, Repr

/-- The empty storage object `{}` returned on read failures. -/
def emptyStorage : AutoAttendanceStorage := {}

/-- `AutoAttendanceConfig` (`storage.service.ts` lines 23-27). -/
structure AutoAttendanceConfig where
  autoCheckInEnabled : Bool
  autoStartEnabled : Bool
  showNotifications : Bool
deriving DecidableEq, Repr

/-- The default config produced by `readConfig` when the file is missing or
unreadable (`storage.service.ts` lines 114-118 and 125-129). -/
def defaultConfig : AutoAttendanceConfig :=
  { autoCheckInEnabled := true, autoStartEnabled := true, showNotifications := true }

/-- A partial update `Partial<AutoAttendanceStorage>`: each field is
`none` when the key is absent from the update object and `some v` when the
key is present with value `v` (where `v = none` models an explicit
`undefined`, which JS object spread still copies). -/
structure StorageUpdate where
  lastCheckInAttemptTimestamp : Option (Option String) := none
  lastCheckInSessionId : Option (Option String) := none
  lastNetworkUsed : Option (Option NetworkUsed) := none
  lastTriggerAttempts : Option (Option (List (String × String))) := none
deriving DecidableEq, Repr

/-- JS object spread `{ ...current, ...updates }` (`storage.service.ts`
line 156): a key present in `updates` (even with value `undefined`)
overrides `current`; an absent key leaves `current`'s value. -/
def mergeStorage (current : AutoAttendanceStorage) (updates : StorageUpdate) :
    AutoAttendanceStorage where
  lastCheckInAttemptTimestamp :=
    updates.lastCheckInAttemptTimestamp.getD current.lastCheckInAttemptTimestamp
  lastCheckInSessionId :=
    updates.lastCheckInSessionId.getD current.lastCheckInSessionId
  lastNetworkUsed := updates.lastNetworkUsed.getD current.lastNetworkUsed
  lastTriggerAttempts := updates.lastTriggerAttempts.getD current.lastTriggerAttempts

/-! ### On-disk content of the storage file

`readStorage` (`storage.service.ts` lines 61-82) distinguishes: file missing;
file contents that make `JSON.parse` throw; parsed plain JSON (envelope flag
falsy); parsed envelope with `encrypted: true`, whose payload can decrypt and
parse, fail to decrypt (`safeStorage.decryptString` throws), or decrypt to a
string on which the inner `JSON.parse` throws. -/

inductive EncryptedPayload where
  | ok (s : AutoAttendanceStorage)
  | decryptFail
  | innerMalformed (raw : String)
deriving DecidableEq, Repr

inductive StorageDisk where
  | missing
  | malformed (raw : String)
  | plain (s : AutoAttendanceStorage)
  | encrypted (p : EncryptedPayload)
deriving DecidableEq, Repr

/-- Body of `readStorage` inside its `try` (`storage.service.ts` lines 62-77);
`Except.error` marks the paths where the JS code throws.  When the file holds
an `encrypted: true` envelope but encryption is unavailable, the raw envelope
object is returned (line 77); its typed projection onto
`AutoAttendanceStorage` has every key absent, i.e. `emptyStorage`. -/
def readStorageBody (encAvail : Bool) (d : StorageDisk) :
    Except Unit AutoAttendanceStorage :=
  match d with
  | .missing => .ok emptyStorage
  | .malformed _ => .error ()
  | .plain s => .ok s
  | .encrypted p =>
    if encAvail then
      match p with
      | .ok s => .ok s
      | .decryptFail => .error ()
      | .innerMalformed _ => .error ()
    else .ok emptyStorage

/-- `readStorage` (`storage.service.ts` lines 61-82): the `catch` at line 78
folds every thrown error into `{}`. -/
def readStorage (encAvail : Bool) (d : StorageDisk) : AutoAttendanceStorage :=
  match readStorageBody encAvail d with
  | .ok s => s
  | .error _ => emptyStorage

/-- `writeStorage` (`storage.service.ts` lines 87-106).  `writeOk = false`
models a file-system write that throws; the `catch` at line 103 swallows it
and the disk is left unchanged. -/
def writeStorage (encAvail writeOk : Bool) (s : AutoAttendanceStorage)
    (d : StorageDisk) : StorageDisk :=
  if writeOk then
    if encAvail then .encrypted (.ok s) else .plain s
  else d

/-- `getStorage` (`storage.service.ts` lines 147-149). -/
def getStorage (encAvail : Bool) (d : StorageDisk) : AutoAttendanceStorage :=
  readStorage encAvail d

/-- `updateStorage` (`storage.service.ts` lines 154-158): read-modify-write
with JS-spread merge semantics. -/
def updateStorage (encAvail writeOk : Bool) (updates : StorageUpdate)
    (d : StorageDisk) : StorageDisk :=
  writeStorage encAvail writeOk (mergeStorage (readStorage encAvail d) updates) d

/-! ### Config file -/

inductive ConfigDisk where
  | missing
  | malformed (raw : String)
  | stored (c : AutoAttendanceConfig)
deriving DecidableEq, Repr

/-- Body of `readConfig` inside its `try` (`storage.service.ts` lines 112-122). -/
def readConfigBody (d : ConfigDisk) : Except Unit AutoAttendanceConfig :=
  match d with
  | .missing => .ok defaultConfig
  | .malformed _ => .error ()
  | .stored c => .ok c

/-- `readConfig` (`storage.service.ts` lines 111-131): the `catch` at line 123
returns the all-true default config. -/
def readConfig (d : ConfigDisk) : AutoAttendanceConfig :=
  match readConfigBody d with
  | .ok c => c
  | .error _ => defaultConfig

/-- `getConfig` (`storage.service.ts` lines 222-224). -/
def getConfig (d : ConfigDisk) : AutoAttendanceConfig :=
  readConfig d

/-! ### Timestamps and `getLastCheckInAttemptToday` -/

/-- Milliseconds per (fixed-length, local) day. -/
def msPerDay : Nat := 86400000

/-- Local midnight at the start of the day containing `now`
(`today.setHours(0,0,0,0)`, `storage.service.ts` lines 170-171). -/
def startOfDay (now : Nat) : Nat := now / msPerDay * msPerDay

/-- Local calendar-day index of a time, used to state "same calendar date". -/
def localDayIndex (t : Nat) : Nat := t / msPerDay

/-- Injective encoding standing for `Date.prototype.toISOString`. -/
def isoOf (t : Nat) : String := toString t

/-- `new Date(s)` applied to a stored timestamp string: `none` models an
unparseable string (`Invalid Date`, whose `NaN` time makes every `>=`
comparison false).  Decimal parsing is written over the character list so
that it evaluates by kernel reduction. -/
def parseTimestamp (s : String) : Option Nat :=
  match s.data with
  | [] => none
  | cs =>
    if cs.all Char.isDigit then
      some (cs.foldl (fun a c => a * 10 + (c.toNat - 48)) 0)
    else none

/-- `getLastCheckInAttemptToday` (`storage.service.ts` lines 163-179):
returns the stored `lastCheckInAttemptTimestamp` when
`lastAttempt >= today` (local midnight), else `null`.  An `Invalid Date`
fails the comparison and falls through to `return null`. -/
def getLastCheckInAttemptToday (encAvail : Bool) (now : Nat) (d : StorageDisk) :
    Option Nat :=
  match (readStorage encAvail d).lastCheckInAttemptTimestamp with
  | none => none
  | some s =>
    match parseTimestamp s with
    | none => none
    | some lastAttempt =>
      if startOfDay now ≤ lastAttempt then some lastAttempt else none

/-- `setLastCheckInAttempt` (`storage.service.ts` lines 184-189).  The update
object literal always contains both keys; when the optional `sessionId`
argument is omitted the `lastCheckInSessionId` key is present with value
`undefined` (modelled `some none`). -/
def setLastCheckInAttempt (encAvail writeOk : Bool) (timestamp : Nat)
    (sessionId : Option String) (d : StorageDisk) : StorageDisk :=
  updateStorage encAvail writeOk
    { lastCheckInAttemptTimestamp := some (some (isoOf timestamp))
      lastCheckInSessionId := some sessionId } d

/-! ### Session service (session bridge)

Embeds the `SessionService` half of `src/electron/services/config.service.ts`
(lines 74-216): `getSessionFromRenderer` and `validateSession`. -/

/-- `SessionState['user']` (`config.service.ts` lines 84-89). -/
structure SessionUser where
  id : String
  email : String
  name : String
  role : String
deriving DecidableEq, Repr

/-- `SessionState` (`config.service.ts` lines 82-92). -/
structure SessionState where
  isValid : Bool
  user : Option SessionUser := none
  accessToken : Option String := none
  refreshToken : Option String := none
deriving DecidableEq, Repr

/-- The invalid snapshot `{ isValid: false }`. -/
def invalidSession : SessionState := { isValid := false }

/-- JS truthiness of an optional string field: `undefined`/missing and the
empty string are falsy; any other string is truthy. -/
def strTruthy : Option String → Bool
  | none => false
  | some s => s ≠ ""

/-- The fields of the persisted auth blob the injected script inspects
(`state.user`, `state.accessToken`, `state.refreshToken`). -/
structure AuthBlobState where
  user : Option SessionUser := none
  accessToken : Option String := none
  refreshToken : Option String := none
deriving DecidableEq, Repr

/-- A successfully `JSON.parse`d `auth-storage` value.  The script computes
`parsed.state || parsed` (`config.service.ts` line 132): if the parsed object
has a truthy `state` key that nested object is used, otherwise the top-level
object itself is read in the flat shape. -/
structure ParsedAuth where
  state : Option AuthBlobState := none
  top : AuthBlobState := {}
deriving DecidableEq, Repr

/-- `parsed.state || parsed`. -/
def effectiveState (p : ParsedAuth) : AuthBlobState :=
  p.state.getD p.top

/-- Contents of `localStorage.getItem('auth-storage')` in the renderer:
absent (`null`), present but not valid JSON (`JSON.parse` throws), or
parsed. -/
inductive AuthStorage where
  | absent
  | unparseable (raw : String)
  | parsed (p : ParsedAuth)
deriving DecidableEq, Repr

/-- The IIFE injected via `executeJavaScript` (`config.service.ts` lines
123-150).  Its own `try/catch` turns a `JSON.parse` throw into
`{ isValid: false }`; it also returns `{ isValid: false }` when the key is
absent or when `!state.refreshToken || !state.user`. -/
def rendererScript (a : AuthStorage) : SessionState :=
  match a with
  | .absent => invalidSession
  | .unparseable _ => invalidSession
  | .parsed p =>
    let state := effectiveState p
    if !strTruthy state.refreshToken || state.user = none then invalidSession
    else
      { isValid := true
        user := state.user
        accessToken := state.accessToken
        refreshToken := state.refreshToken }

/-- Environment of one `getSessionFromRenderer` call: whether `mainWindow`
exists, whether `webContents.isLoading()` reports loading, whether the
`executeJavaScript` round trip itself rejects, and the renderer's
`auth-storage` contents. -/
structure SessionEnv where
  windowExists : Bool
  isLoading : Bool
  lookupThrows : Bool
  authStorage : AuthStorage
deriving DecidableEq, Repr

/-- Body of `getSessionFromRenderer` (`config.service.ts` lines 107-159)
before its `catch`: `Except.error` marks the path where the
`executeJavaScript` promise rejects.  Note that the readiness flag
`isReady = !webContents.isLoading()` (line 116) is computed and logged but
never branched on: the lookup proceeds regardless. -/
def getSessionFromRendererBody (env : SessionEnv) : Except Unit SessionState :=
  if !env.windowExists then .ok invalidSession
  else
    let _isReady := !env.isLoading
    if env.lookupThrows then .error ()
    else .ok (rendererScript env.authStorage)

/-- `getSessionFromRenderer` (`config.service.ts` lines 107-159): the `catch`
at line 155 folds a rejected lookup into `{ isValid: false }`. -/
def getSessionFromRenderer (env : SessionEnv) : SessionState :=
  match getSessionFromRendererBody env with
  | .ok s => s
  | .error _ => invalidSession

/-- `validateSession` (`config.service.ts` lines 165-184): re-checks
`session.isValid`, then `!session.user || !session.refreshToken`, and
otherwise returns the snapshot unchanged. -/
def validateSession (env : SessionEnv) : SessionState :=
  let session := getSessionFromRenderer env
  if !session.isValid then invalidSession
  else if session.user = none || !strTruthy session.refreshToken then invalidSession
  else session

/-! ### String helpers for the network parsers

The detection code in `src/electron/main.ts` parses line-oriented command
output with JS regexes.  Each regex used there is transcribed below as a
direct string scanner with the same matching semantics (leftmost match,
greedy repetition); where regex backtracking could differ only on inputs all
of whose candidate captures trim to the empty string, the transcription
collapses those cases to the same final outcome as the source (noted at each
use site). -/

/-- JS `\s` / `String.prototype.trim` whitespace (ASCII subset, matching
`String.trim` in Lean). -/
def isWs (c : Char) : Bool := c = ' ' || c = '\t' || c = '\r' || c = '\n'

/-- `trim` on a character list: drop leading and trailing whitespace. -/
def trimC (cs : List Char) : List Char :=
  ((cs.dropWhile isWs).reverse.dropWhile isWs).reverse

/-- `String.prototype.trim`, written structurally so it evaluates by kernel
reduction. -/
def jsTrim (s : String) : String := String.mk (trimC s.data)

/-- Split a character list on a separator character (the single-character
uses of `split` in the source). -/
def splitOnCharC (sep : Char) : List Char → List (List Char)
  | [] => [[]]
  | c :: t =>
    match splitOnCharC sep t with
    | [] => [[c]]
    | h :: rest => if c = sep then [] :: h :: rest else (c :: h) :: rest

/-- `String.prototype.toLowerCase` (structural). -/
def lowerStr (s : String) : String := String.mk (s.data.map Char.toLower)

/-- `String.prototype.toUpperCase` (structural). -/
def upperStr (s : String) : String := String.mk (s.data.map Char.toUpper)

/-- `str.split(/\r?\n/)`. -/
def splitLines (s : String) : List String :=
  (splitOnCharC '\n' s.data).map
    (fun l => String.mk (if l.getLast? = some '\r' then l.dropLast else l))

/-- Substring search on character lists. -/
def hasSubC (hay pat : List Char) : Bool :=
  match hay with
  | [] => pat.isEmpty
  | c :: t => pat.isPrefixOf (c :: t) || hasSubC t pat

/-- `hay.includes(pat)`. -/
def containsStr (hay pat : String) : Bool := hasSubC hay.data pat.data

/-- Case-insensitive substring test (`/pat/i.test(hay)` for a literal
pattern). -/
def containsCI (hay pat : String) : Bool := containsStr (lowerStr hay) (lowerStr pat)

/-- Remainder of `hay` after the leftmost occurrence of `pat`, or `none`. -/
def dropToAfterC (hay pat : List Char) : Option (List Char) :=
  match hay with
  | [] => if pat.isEmpty then some [] else none
  | c :: t =>
    if pat.isPrefixOf (c :: t) then some ((c :: t).drop pat.length)
    else dropToAfterC t pat

/-- Sequential containment, implementing regex patterns of the form
`a.*b` (and `a.*b.*c`) on a single line. -/
def containsSeqC (hay : List Char) : List (List Char) → Bool
  | [] => true
  | p :: ps =>
    match dropToAfterC hay p with
    | none => false
    | some rest => containsSeqC rest ps

/-- Case-insensitive `a.*b` style test. -/
def containsSeqCI (hay : String) (pats : List String) : Bool :=
  containsSeqC (lowerStr hay).data (pats.map (fun p => (lowerStr p).data))

/-- `[0-9A-Fa-f]`. -/
def isHexDigit (c : Char) : Bool :=
  c.isDigit || ('a' ≤ c.toLower && c.toLower ≤ 'f')

/-- `[:-]`, the MAC separators accepted on Windows. -/
def isMacSep (c : Char) : Bool := c = ':' || c = '-'

/-- Does `cs` consist of exactly 17 characters forming
`(hex hex sep){5} hex hex` with the given separator class
(`([0-9A-F]{2}[:-]){5}([0-9A-F]{2})` and its colon-only variant)? -/
def isMac17Sep (sepOk : Char → Bool) (cs : List Char) : Bool :=
  match cs with
  | [a, b, s1, c, d, s2, e, f, s3, g, h, s4, i, j, s5, k, l] =>
    isHexDigit a && isHexDigit b && sepOk s1 &&
    isHexDigit c && isHexDigit d && sepOk s2 &&
    isHexDigit e && isHexDigit f && sepOk s3 &&
    isHexDigit g && isHexDigit h && sepOk s4 &&
    isHexDigit i && isHexDigit j && sepOk s5 &&
    isHexDigit k && isHexDigit l
  | _ => false

/-- Leftmost 17-character MAC-shaped substring with the given separator
class. -/
def findMacSep (sepOk : Char → Bool) (cs : List Char) : Option String :=
  match cs with
  | [] => none
  | c :: t =>
    if isMac17Sep sepOk ((c :: t).take 17) then some (String.mk ((c :: t).take 17))
    else findMacSep sepOk t

/-- `mac.replace('-', ':')` (globally) then `.toUpperCase()`. -/
def normalizeMac (s : String) : String :=
  upperStr (String.mk (s.data.map (fun c => if c = '-' then ':' else c)))

/-- `[0-9a-f:]` (used under `/i`). -/
def isHexColonClass (c : Char) : Bool := isHexDigit c || c = ':'

/-- `[0-9a-f:]{17}` anchored at the head of `cs`. -/
def take17Class (cs : List Char) : Option String :=
  let t := cs.take 17
  if t.length = 17 && t.all isHexColonClass then some (String.mk t) else none

/-- After optional whitespace, expect a colon; return what follows it. -/
def wsColonRest (cs : List Char) : Option (List Char) :=
  match cs.dropWhile isWs with
  | ':' :: r => some r
  | _ => none

/-- `key` anchored here, then `\s+`, then `[0-9a-f:]{17}` (the
`/ether\s+([0-9a-f:]{17})/i` and `/link\/ether\s+.../i` shapes). -/
def keyWsClass17At (key : List Char) (cs : List Char) : Option String :=
  if key.isPrefixOf cs then
    match cs.drop key.length with
    | c :: r => if isWs c then take17Class ((c :: r).dropWhile isWs) else none
    | [] => none
  else none

/-- Leftmost match of `key\s+[0-9a-f:]{17}`. -/
def keyWsClass17Scan (key : List Char) (cs : List Char) : Option String :=
  match cs with
  | [] => none
  | c :: t =>
    match keyWsClass17At key (c :: t) with
    | some m => some m
    | none => keyWsClass17Scan key t

/-! ### Wi-Fi detection (`getCurrentWifiLocal`, `main.ts` lines 822-939) -/

/-- `WifiInfo` (`main.ts`, via `utils/network.util`). -/
structure WifiInfo where
  ssid : Option String := none
  bssid : Option String := none
deriving DecidableEq, Repr

/-- `/^\s*SSID\s*:/` test on one line, returning what follows the colon when
it matches (`main.ts` line 842).  The capture `/SSID\s*:\s*(.+)/i` (line 843)
then finds the same colon (the leading whitespace holds no letters), so the
trimmed capture equals the trimmed remainder; when the remainder is empty the
capture regex fails and, equally, the empty trimmed value is skipped by the
`foundSsid` truthiness check at line 848 — both paths leave `ssid`
unchanged. -/
def ssidLineRest (line : String) : Option String :=
  let l := line.data.dropWhile isWs
  if ("SSID".data).isPrefixOf l then
    match wsColonRest (l.drop 4) with
    | some r => some (String.mk r)
    | none => none
  else none

/-- `/BSSID\s*:/` test (`main.ts` line 856, case-sensitive). -/
def hasKeyColon (cs key : List Char) : Bool :=
  match cs with
  | [] => false
  | c :: t =>
    (key.isPrefixOf (c :: t) && (wsColonRest ((c :: t).drop key.length)).isSome) ||
    hasKeyColon t key

/-- Capture of `/(?:AP\s+)?BSSID\s*:\s*(MAC)/i` (`main.ts` line 858),
scanned over the lowercased line: leftmost position where `bssid`, optional
whitespace, a colon, optional whitespace and a 17-character MAC with `:` or
`-` separators occur.  (The optional `AP\s+` prefix does not change the
captured MAC.) -/
def winBssidCapture (cs : List Char) : Option String :=
  match cs with
  | [] => none
  | c :: t =>
    match
      (if ("bssid".data).isPrefixOf (c :: t) then
        match wsColonRest ((c :: t).drop 5) with
        | some r =>
          let r2 := r.dropWhile isWs
          if isMac17Sep isMacSep (r2.take 17) then some (String.mk (r2.take 17)) else none
        | none => none
      else none) with
    | some m => some m
    | none => winBssidCapture t

/-- The SSID half of one iteration of the Windows
`netsh wlan show interfaces` parsing loop (`main.ts` lines 842-852): on an
`SSID :` line that is not a `Profile` line, adopt the trimmed value unless
it is empty or the sentinel `"none"`. -/
def winWifiSsidUpdate (wi : WifiInfo) (line : String) : WifiInfo :=
  match ssidLineRest line with
  | some rest =>
    if containsStr line "Profile" then wi
    else
      let foundSsid := jsTrim rest
      if foundSsid ≠ "" && lowerStr foundSsid ≠ "none" then { wi with ssid := some foundSsid }
      else wi
  | none => wi

/-- The BSSID half of the same iteration (`main.ts` lines 856-864). -/
def winWifiBssidUpdate (wi : WifiInfo) (line : String) : WifiInfo :=
  if hasKeyColon line.data ("BSSID".data) then
    match winBssidCapture (lowerStr line).data with
    | some m => { wi with bssid := some (normalizeMac m) }
    | none => wi
  else wi

/-- One iteration of the Windows parsing loop (`main.ts` lines 838-865):
the SSID check followed by the independent BSSID check on the same line. -/
def winWifiStep (wi : WifiInfo) (line : String) : WifiInfo :=
  winWifiBssidUpdate (winWifiSsidUpdate wi line) line

/-- Windows branch parsing (`main.ts` lines 829-870). -/
def winWifiParse (stdout : String) : WifiInfo :=
  (splitLines stdout).foldl winWifiStep {}

/-- `/^\s*KEY.../` anchored at the start of one line: remainder after the
literal `key` following optional leading whitespace. -/
def keyLineRest (key : String) (line : String) : Option String :=
  let l := line.data.dropWhile isWs
  if key.data.isPrefixOf l then some (String.mk (l.drop key.data.length)) else none

/-- `stdout.match(/^\s*SSID:\s*(.+)$/m)` (`main.ts` line 881): first line
whose content after optional leading whitespace is `SSID:` followed by a
non-empty remainder; the returned value is the trimmed remainder (the
trimmed capture equals the trimmed remainder, see `ssidLineRest`). -/
def airportSsid (lines : List String) : Option String :=
  match lines with
  | [] => none
  | line :: rest =>
    match keyLineRest "SSID:" line with
    | some r => if r ≠ "" then some (jsTrim r) else airportSsid rest
    | none => airportSsid rest

/-- `stdout.match(/^\s*BSSID:\s*([0-9a-f:]{17})/mi)` then
`.trim().toUpperCase()` (`main.ts` lines 882 and 886). -/
def airportBssid (lines : List String) : Option String :=
  match lines with
  | [] => none
  | line :: rest =>
    match keyLineRest "bssid:" (lowerStr line) with
    | some r =>
      match take17Class (r.data.dropWhile isWs) with
      | some m => some (upperStr m)
      | none => airportBssid rest
    | none => airportBssid rest

/-- macOS `airport -I` parsing (`main.ts` lines 881-887). -/
def airportParse (stdout : String) : WifiInfo :=
  { ssid := airportSsid (splitLines stdout), bssid := airportBssid (splitLines stdout) }

/-- `stdout.match(/Current Wi-Fi Network:\s*(.+)/)` (`main.ts` line 891):
first line containing the key with a non-empty remainder; value is the
trimmed remainder. -/
def networksetupSsid (lines : List String) : Option String :=
  match lines with
  | [] => none
  | line :: rest =>
    match dropToAfterC line.data ("Current Wi-Fi Network:".data) with
    | some r => if r ≠ [] then some (jsTrim (String.mk r)) else networksetupSsid rest
    | none => networksetupSsid rest

/-- `stdout.match(/yes:(.+)/)` (`main.ts` line 923): first line containing
`yes:` with a non-empty remainder; value is the trimmed remainder (which may
be the empty string — no truthiness filter is applied on this path). -/
def nmcliSsid (lines : List String) : Option String :=
  match lines with
  | [] => none
  | line :: rest =>
    match dropToAfterC line.data ("yes:".data) with
    | some r => if r ≠ [] then some (jsTrim (String.mk r)) else nmcliSsid rest
    | none => nmcliSsid rest

/-! ### Command environment -/

/-- The platforms distinguished by `process.platform` in the source. -/
inductive Platform where
  | win32
  | darwin
  | linux
  | other
deriving DecidableEq, Repr

/-- `execAsync`: a command string either resolves to its stdout or rejects
(`Except.error`). -/
abbrev CmdEnv := String → Except Unit String

def netshCmd : String := "netsh wlan show interfaces"

def airportCmd : String :=
  "/System/Library/PrivateFrameworks/Apple80211.framework/Versions/Current/Resources/airport -I"

def networksetupWifiCmd : String := "networksetup -getairportnetwork en0"

def iwgetidCmd : String := "iwgetid -r"

def iwgetidApCmd : String := "iwgetid -ar"

def nmcliCmd : String := "nmcli -t -f active,ssid dev wifi | grep \"^yes:\" | head -1"

def ipconfigCmd : String := "ipconfig /all"

def getmacCmd : String := "getmac /fo csv /nh /v"

def listHardwarePortsCmd : String := "networksetup -listallhardwareports"

def ipLinkCmd : String := "ip link show"

def ifconfigCmd (device : String) : String := "ifconfig " ++ device

/-- `getCurrentWifiLocal` (`main.ts` lines 822-939).  Every `catch` of the
source is transcribed as a `match` on the command's `Except` result; on the
macOS path the fallback `networksetup` call sits inside the first `catch`
unguarded, so its failure propagates to the function-level `catch` at line
933, which returns `{ ssid: null, bssid: null }`. -/
def getCurrentWifiLocal (p : Platform) (env : CmdEnv) : WifiInfo :=
  match p with
  | .win32 =>
    match env netshCmd with
    | .ok out => winWifiParse out
    | .error _ => {}
  | .darwin =>
    match env airportCmd with
    | .ok out => airportParse out
    | .error _ =>
      match env networksetupWifiCmd with
      | .ok out => { ssid := networksetupSsid (splitLines out), bssid := none }
      | .error _ => {}
  | .linux =>
    match env iwgetidCmd with
    | .ok out =>
      { ssid := if jsTrim out = "" then none else some (jsTrim out)
        bssid :=
          match env iwgetidApCmd with
          | .ok b => (findMacSep (fun c => c = ':') b.data).map upperStr
          | .error _ => none }
    | .error _ =>
      match env nmcliCmd with
      | .ok out => { ssid := nmcliSsid (splitLines out), bssid := none }
      | .error _ => {}
  | .other => {}

/-! ### Ethernet detection (`getEthernetMacAddress`, `main.ts` lines 598-816) -/

/-- Result shape `{ macAddress: string | null; adapterName?: string }`. -/
structure EthernetResult where
  macAddress : Option String := none
  adapterName : Option String := none
deriving DecidableEq, Repr

/-- The Wi-Fi adapter-name filter
`/wireless|wlan|wi-fi|802\.11|wifi|qualcomm.*wireless|qca.*wireless/i`
(`main.ts` line 627).  The last two alternatives are transcribed with the
sequential-containment helper (they are subsumed by `wireless` but kept for
fidelity). -/
def isWifiAdapterName (n : String) : Bool :=
  containsCI n "wireless" || containsCI n "wlan" || containsCI n "wi-fi" ||
  containsCI n "802.11" || containsCI n "wifi" ||
  containsSeqCI n ["qualcomm", "wireless"] || containsSeqCI n ["qca", "wireless"]

/-- The loopback/virtual adapter filter (`main.ts` line 629). -/
def isVirtualAdapterName (n : String) : Bool :=
  containsCI n "loopback" || containsCI n "tunneling" || containsCI n "isatap" ||
  containsCI n "teredo" || containsCI n "6to4" ||
  containsSeqCI n ["vmware", "adapter"] || containsSeqCI n ["virtualbox", "adapter"] ||
  containsSeqCI n ["hyper-v", "virtual"] || containsSeqCI n ["microsoft", "wifi", "direct"] ||
  containsCI n "bluetooth"

/-- The save-adapter block shared by the loop body and the final flush
(`main.ts` lines 625-637 and 667-677): a completed adapter with a MAC is
kept unless its name matches the Wi-Fi or virtual filters; adapters with an
IPv4 address are `unshift`ed to the front, the rest `push`ed to the back. -/
def saveAdapter (active : List (String × String)) (name mac : String)
    (hasIp : Bool) : List (String × String) :=
  if name ≠ "" && mac ≠ "" then
    if !isWifiAdapterName name then
      if !isVirtualAdapterName name then
        if hasIp then (name, mac) :: active else active ++ [(name, mac)]
      else active
    else active
  else active

/-- `/^\d+\./` (`main.ts` line 623): one or more digits followed by a dot. -/
def startsWithDigitsDot (line : String) : Bool :=
  let ds := line.data.takeWhile Char.isDigit
  decide (ds ≠ []) &&
    (match line.data.drop ds.length with
     | '.' :: _ => true
     | _ => false)

/-- Adapter-header test on the (already trimmed) line (`main.ts` line 623):
non-empty, ends with a colon, does not start with a space, and is not an
IP-style numeric line. -/
def isHeaderLine (line : String) : Bool :=
  line ≠ "" && line.data.getLast? = some ':' &&
    !(match line.data with
      | ' ' :: _ => true
      | _ => false) &&
    !startsWithDigitsDot line

/-- `line.replace(':', '')` anchored at the end (`main.ts` line 640). -/
def stripTrailingColon (line : String) : String :=
  if line.data.getLast? = some ':' then String.mk line.data.dropLast else line

/-- `\d+\.\d+\.\d+\.\d+` anchored at the head of `cs`, with greedy digit
runs; returns the matched dotted quad. -/
def parseIpv4At (cs : List Char) : Option String :=
  let d1 := cs.takeWhile Char.isDigit
  if d1.isEmpty then none else
  match cs.drop d1.length with
  | '.' :: r1 =>
    let d2 := r1.takeWhile Char.isDigit
    if d2.isEmpty then none else
    match r1.drop d2.length with
    | '.' :: r2 =>
      let d3 := r2.takeWhile Char.isDigit
      if d3.isEmpty then none else
      match r2.drop d3.length with
      | '.' :: r3 =>
        let d4 := r3.takeWhile Char.isDigit
        if d4.isEmpty then none else
        some (String.mk (d1 ++ '.' :: (d2 ++ '.' :: (d3 ++ '.' :: d4))))
      | _ => none
    | _ => none
  | _ => none

/-- Capture of `/IPv4 Address[^:]*:\s*(\d+\.\d+\.\d+\.\d+)/i`
(`main.ts` line 658), at the first occurrence of the key: `[^:]*` cannot
cross a colon, so the colon matched is the first one after the key; then
optional whitespace and a dotted quad.  (The optional `\(Preferred\)` suffix
follows the capture and does not affect it.) -/
def ipv4Capture (line : String) : Option String :=
  match dropToAfterC (lowerStr line).data ("ipv4 address".data) with
  | none => none
  | some r =>
    match r.dropWhile (fun c => c ≠ ':') with
    | ':' :: r2 => parseIpv4At (r2.dropWhile isWs)
    | _ => none

/-- Mutable state of the `ipconfig /all` parsing loop (`main.ts` lines
614-617). -/
structure WinEthState where
  currentAdapter : String := ""
  currentMac : String := ""
  hasIpAddress : Bool := false
  activeAdapters : List (String × String) := []
deriving DecidableEq, Repr

/-- One iteration of the `ipconfig /all` loop (`main.ts` lines 619-664):
the line is trimmed; an adapter-header line flushes the previous adapter and
resets the trackers; then the `Physical Address` and `IPv4 Address` checks
run on the same line. -/
def winEthStep (st : WinEthState) (rawLine : String) : WinEthState :=
  let line := jsTrim rawLine
  let st1 :=
    if isHeaderLine line then
      { currentAdapter := jsTrim (stripTrailingColon line)
        currentMac := ""
        hasIpAddress := false
        activeAdapters :=
          saveAdapter st.activeAdapters st.currentAdapter st.currentMac st.hasIpAddress }
    else st
  let st2 :=
    if containsStr line "Physical Address" || containsStr line "Physical address" then
      match findMacSep isMacSep line.data with
      | some m =>
        if st1.currentAdapter ≠ "" then { st1 with currentMac := normalizeMac m } else st1
      | none => st1
    else st1
  if containsStr line "IPv4 Address" && !containsStr line "Autoconfiguration" then
    match ipv4Capture line with
    | some ip => if ip ≠ "0.0.0.0" then { st2 with hasIpAddress := true } else st2
    | none => st2
  else st2

/-- The full `ipconfig /all` pass (`main.ts` lines 609-677), including the
final flush of the last adapter. -/
def winEthCollect (stdout : String) : List (String × String) :=
  let final := (splitLines stdout).foldl winEthStep {}
  saveAdapter final.activeAdapters final.currentAdapter final.currentMac final.hasIpAddress

/-- Parse of one `getmac /fo csv /nh /v` line with
`/^"([^"]*)","([^"]*)","([0-9A-F-]{17})"/i` (`main.ts` line 697):
connection name, adapter name, physical address. -/
def parseGetmacLine (line : String) : Option (String × String × String) :=
  match line.data with
  | '"' :: r =>
    let q1 := r.takeWhile (fun c => c ≠ '"')
    match r.drop q1.length with
    | '"' :: ',' :: '"' :: r2 =>
      let q2 := r2.takeWhile (fun c => c ≠ '"')
      match r2.drop q2.length with
      | '"' :: ',' :: '"' :: r3 =>
        let m := r3.take 17
        if m.length = 17 && m.all (fun c => isHexDigit c || c = '-') then
          match r3.drop 17 with
          | '"' :: _ => some (String.mk q1, String.mk q2, String.mk m)
          | _ => none
        else none
      | _ => none
    | _ => none
  | _ => none

/-- `/wireless|wlan|wi-fi|802\.11|wifi/i` (`main.ts` line 706). -/
def isWifiBasicName (n : String) : Bool :=
  containsCI n "wireless" || containsCI n "wlan" || containsCI n "wi-fi" ||
  containsCI n "802.11" || containsCI n "wifi"

/-- The `getmac` fallback loop (`main.ts` lines 695-726): first parseable
CSV line that is not a Wi-Fi/Bluetooth/virtual adapter and whose connection
or adapter name marks it as Ethernet (or USB gigabit). -/
def getmacScan (lines : List String) : Option (String × String) :=
  match lines with
  | [] => none
  | line :: rest =>
    match parseGetmacLine line with
    | none => getmacScan rest
    | some (conn, adapter, mac) =>
      if isWifiBasicName conn || isWifiBasicName adapter then getmacScan rest
      else if containsCI adapter "bluetooth" ||
          containsSeqCI adapter ["microsoft", "wifi", "direct"] then getmacScan rest
      else if containsCI conn "ethernet" || containsCI adapter "ethernet" ||
          containsSeqCI adapter ["usb", "gb"] then
        some (normalizeMac mac, adapter)
      else getmacScan rest

/-- `getmacOutput.trim().split(...)` filtered to lines with non-empty trim
(`main.ts` line 692). -/
def getmacLines (stdout : String) : List String :=
  (splitLines (jsTrim stdout)).filter (fun l => jsTrim l ≠ "")

/-- `/ether\s+([0-9a-f:]{17})/i` capture over `ifconfig` output
(`main.ts` line 764); the source then upper-cases the capture. -/
def etherMacCapture (stdout : String) : Option String :=
  keyWsClass17Scan ("ether".data) (lowerStr stdout).data

/-- `/link\/ether\s+([0-9a-f:]{17})/i` capture (`main.ts` line 795). -/
def linkEtherMacCapture (line : String) : Option String :=
  keyWsClass17Scan ("link/ether".data) (lowerStr line).data

/-- The macOS `networksetup -listallhardwareports` loop (`main.ts` lines
745-773): tracks the current hardware port and device, skips Wi-Fi ports
(`/Wi-Fi|AirPort/i`), and for each `en*` device runs `ifconfig`, returning
the first `ether` MAC found; a failing `ifconfig` just continues.  Falling
out of the loop reaches the final `return { macAddress: null }` at line
815. -/
def darwinEthLoop (env : CmdEnv) : List String → String → String → EthernetResult
  | [], _, _ => {}
  | line :: rest, port, device =>
    let port' :=
      if containsStr line "Hardware Port:" then
        jsTrim (String.mk ((splitOnCharC ':' line.data).getD 1 []))
      else port
    if containsStr line "Device:" then
      let device' := jsTrim (String.mk ((splitOnCharC ':' line.data).getD 1 []))
      if containsCI port' "wi-fi" || containsCI port' "airport" then
        darwinEthLoop env rest port' device'
      else if device' ≠ "" && ("en".data).isPrefixOf device'.data then
        match env (ifconfigCmd device') with
        | .ok out =>
          match etherMacCapture out with
          | some mac => { macAddress := some (upperStr mac), adapterName := some port' }
          | none => darwinEthLoop env rest port' device'
        | .error _ => darwinEthLoop env rest port' device'
      else darwinEthLoop env rest port' device'
    else darwinEthLoop env rest port' device

/-- `/^\d+:\s+(p1|p2|...)/i` interface-line test (`main.ts` lines 788 and
793). -/
def linuxIfaceTest (prefixes : List String) (line : String) : Bool :=
  let cs := line.data
  let ds := cs.takeWhile Char.isDigit
  if ds.isEmpty then false else
  match cs.drop ds.length with
  | ':' :: c :: r =>
    isWs c &&
      (let r1 := ((c :: r).dropWhile isWs).map Char.toLower
       prefixes.any (fun p => (lowerStr p).data.isPrefixOf r1))
  | _ => false

/-- `/^\d+:\s+([^:]+):/` adapter-name capture, then `.trim()`
(`main.ts` line 797). -/
def linuxAdapterName (line : String) : Option String :=
  let cs := line.data
  let ds := cs.takeWhile Char.isDigit
  if ds.isEmpty then none else
  match cs.drop ds.length with
  | ':' :: c :: r =>
    if isWs c then
      let r1 := (c :: r).dropWhile isWs
      let nm := r1.takeWhile (fun x => x ≠ ':')
      if !nm.isEmpty &&
          (match r1.drop nm.length with
           | ':' :: _ => true
           | _ => false) then
        some (jsTrim (String.mk nm))
      else none
    else none
  | _ => none

/-- The Linux `ip link show` loop (`main.ts` lines 784-804): skip wireless
interfaces, and for each Ethernet-named interface look for a `link/ether`
MAC on the following line. -/
def linuxEthScan : List String → EthernetResult
  | [] => {}
  | line :: rest =>
    if linuxIfaceTest ["wlan", "wlp", "wl-"] line then linuxEthScan rest
    else if linuxIfaceTest ["eth", "enp", "eno", "ens", "em"] line then
      match linkEtherMacCapture (rest.headD "") with
      | some mac => { macAddress := some (upperStr mac), adapterName := linuxAdapterName line }
      | none => linuxEthScan rest
    else linuxEthScan rest

/-- `getEthernetMacAddress` (`main.ts` lines 598-816).  Every command
failure is caught by a `catch` in the source and transcribed as the
`.error` arm of a `match`; each such arm returns a not-found result or
continues the surrounding loop. -/
def getEthernetMacAddress (p : Platform) (env : CmdEnv) : EthernetResult :=
  match p with
  | .win32 =>
    match env ipconfigCmd with
    | .error _ => {}
    | .ok out =>
      match (winEthCollect out).head? with
      | some (name, mac) => { macAddress := some mac, adapterName := some name }
      | none =>
        match env getmacCmd with
        | .error _ => {}
        | .ok g =>
          match getmacScan (getmacLines g) with
          | some (mac, adapter) => { macAddress := some mac, adapterName := some adapter }
          | none => {}
  | .darwin =>
    match env listHardwarePortsCmd with
    | .error _ => {}
    | .ok out => darwinEthLoop env (splitLines out) "" ""
  | .linux =>
    match env ipLinkCmd with
    | .error _ => {}
    | .ok out => linuxEthScan (splitLines out)
  | .other => {}

/-! ### Network-change debounce (`setupAutoAttendance`, `main.ts` lines
420-456)

`checkNetworkChange` keeps `lastNetworkState` (a JSON string of the current
fingerprint) and a single restartable debounce timer: when the polled state
differs from the previous one, any pending timer is cleared and a new 3000 ms
timer is armed; when the timer fires, one `attemptAutoCheckIn` call is made.
The model tracks the pending timer as an optional absolute deadline and
counts fired attempts. -/

def debounceWindowMs : Nat := 3000

structure DebounceState where
  lastNetworkState : Option String := none
  timerDeadline : Option Nat := none
  attemptCount : Nat := 0
deriving DecidableEq, Repr

/-- One execution of `checkNetworkChange` at time `t` observing fingerprint
string `s` (`main.ts` lines 424-449): on a change (previous state non-null
and different) the pending timer, if any, is cleared and replaced by a timer
due at `t + 3000`; `lastNetworkState` is always updated. -/
def observeNetwork (t : Nat) (s : String) (st : DebounceState) : DebounceState :=
  if st.lastNetworkState ≠ none ∧ st.lastNetworkState ≠ some s then
    { lastNetworkState := some s
      timerDeadline := some (t + debounceWindowMs)
      attemptCount := st.attemptCount }
  else { st with lastNetworkState := some s }

/-- Timer semantics at time `t`: a pending timer fires once its deadline has
been reached, making exactly one `attemptAutoCheckIn('network_change')` call
and clearing itself (`main.ts` lines 438-442); before its deadline nothing
happens. -/
def fireTimer (t : Nat) (st : DebounceState) : DebounceState :=
  match st.timerDeadline with
  | some d =>
    if d ≤ t then
      { st with timerDeadline := none, attemptCount := st.attemptCount + 1 }
    else st
  | none => st

/-- Process a sequence of timed observations. -/
def runObservations (obs : List (Nat × String)) (st : DebounceState) : DebounceState :=
  obs.foldl (fun a p => observeNetwork p.1 p.2 a) st

/-- Every observation in the list differs from the state observed just
before it (a burst of genuine network changes). -/
def IsChangeBurst (prev : String) : List (Nat × String) → Prop
  | [] => True
  | (_, s) :: rest => s ≠ prev ∧ IsChangeBurst s rest

/-- Adjacent observations are in time order and each arrives before the
debounce window of the previous one has elapsed. -/
def WithinWindow : List (Nat × String) → Prop
  | [] => True
  | [_] => True
  | (t1, _) :: (t2, s2) :: rest =>
    t1 ≤ t2 ∧ t2 < t1 + debounceWindowMs ∧ WithinWindow ((t2, s2) :: rest)

/-! ## Theorems for the claims -/

/-- C1, claim as stated, refuted: the spec says `getLastCheckInAttemptToday`
returns the stored timestamp only when its calendar date equals today's
(a later date should give `null`), but the code's comparison is
`lastAttempt >= today`: with "now" early on day 0 and a stored timestamp on
day 1, the stored timestamp's calendar day differs from today's and yet it
is returned. -/
theorem c1_counterexample :
    getLastCheckInAttemptToday true 5
        (.plain { lastCheckInAttemptTimestamp := some "86400001" }) =
      some 86400001 ∧
    localDayIndex 86400001 ≠ localDayIndex 5 := by
  constructor
  · decide
  · decide

/-- C1 (amended): `getLastCheckInAttemptToday` returns `some t` exactly when
the stored `lastCheckInAttemptTimestamp` parses to `t` and `t` is at or
after today's local midnight — i.e. its local calendar day is today *or
later*; a missing, unparseable, or strictly-earlier-day timestamp yields
`null`. -/
theorem c1_today_or_later (encAvail : Bool) (now t : Nat) (d : StorageDisk) :
    getLastCheckInAttemptToday encAvail now d = some t ↔
      ∃ s, (readStorage encAvail d).lastCheckInAttemptTimestamp = some s ∧
        parseTimestamp s = some t ∧ localDayIndex now ≤ localDayIndex t := by
  have hd : 0 < msPerDay := by decide
  unfold getLastCheckInAttemptToday
  cases hts : (readStorage encAvail d).lastCheckInAttemptTimestamp with
  | none => simp
  | some s =>
    cases hp : parseTimestamp s with
    | none => simp [hp]
    | some t0 =>
      have hiff : startOfDay now ≤ t0 ↔ localDayIndex now ≤ localDayIndex t0 := by
        unfold startOfDay localDayIndex
        exact (Nat.le_div_iff_mul_le hd).symm
      by_cases hle : startOfDay now ≤ t0
      · simp only [hp, if_pos hle]
        constructor
        · rintro ⟨rfl⟩
          exact ⟨s, rfl, hp, hiff.mp hle⟩
        · rintro ⟨s', hs', hp', _⟩
          cases hs'
          rw [hp] at hp'
          cases hp'
          rfl
      · simp only [hp, if_neg hle]
        constructor
        · intro h
          cases h
        · rintro ⟨s', hs', hp', hday⟩
          cases hs'
          rw [hp] at hp'
          cases hp'
          exact absurd (hiff.mpr hday) hle


/-- C2: for every prior stored state and partial update `x`, a successful
`updateStorage(x)` followed by `getStorage()` yields `x` merged onto the
prior state: each field named in `x` (present key) carries `x`'s value and
each field absent from `x` is unchanged — under either encryption mode. -/
theorem c2_update_roundtrip (encAvail : Bool) (x : StorageUpdate) (d : StorageDisk) :
    getStorage encAvail (updateStorage encAvail true x d) =
      mergeStorage (getStorage encAvail d) x ∧
    (getStorage encAvail (updateStorage encAvail true x d)).lastCheckInAttemptTimestamp =
      (match x.lastCheckInAttemptTimestamp with
       | some v => v
       | none => (getStorage encAvail d).lastCheckInAttemptTimestamp) ∧
    (getStorage encAvail (updateStorage encAvail true x d)).lastCheckInSessionId =
      (match x.lastCheckInSessionId with
       | some v => v
       | none => (getStorage encAvail d).lastCheckInSessionId) ∧
    (getStorage encAvail (updateStorage encAvail true x d)).lastNetworkUsed =
      (match x.lastNetworkUsed with
       | some v => v
       | none => (getStorage encAvail d).lastNetworkUsed) ∧
    (getStorage encAvail (updateStorage encAvail true x d)).lastTriggerAttempts =
      (match x.lastTriggerAttempts with
       | some v => v
       | none => (getStorage encAvail d).lastTriggerAttempts) := by
  have hmain : getStorage encAvail (updateStorage encAvail true x d) =
      mergeStorage (getStorage encAvail d) x := by
    cases encAvail <;>
      simp [getStorage, updateStorage, writeStorage, readStorage, readStorageBody]
  refine ⟨hmain, ?_, ?_, ?_, ?_⟩ <;>
    rw [hmain] <;>
    simp only [mergeStorage] <;>
    first
      | (cases x.lastCheckInAttemptTimestamp <;> rfl)
      | (cases x.lastCheckInSessionId <;> rfl)
      | (cases x.lastNetworkUsed <;> rfl)
      | (cases x.lastTriggerAttempts <;> rfl)

/-- C3: every failing read — missing file, malformed JSON, failed
decryption, or an encrypted payload whose decrypted text is malformed —
makes `getStorage` return the empty state and `getConfig` return the default
config with all three booleans true; no error propagates (the transcription
catches every `Except.error` path). -/
theorem c3_read_failures_yield_defaults (encAvail : Bool) (raw raw2 raw3 : String) :
    getStorage encAvail .missing = emptyStorage ∧
    getStorage encAvail (.malformed raw) = emptyStorage ∧
    getStorage true (.encrypted .decryptFail) = emptyStorage ∧
    getStorage true (.encrypted (.innerMalformed raw2)) = emptyStorage ∧
    getConfig .missing = defaultConfig ∧
    getConfig (.malformed raw3) = defaultConfig ∧
    defaultConfig.autoCheckInEnabled = true ∧
    defaultConfig.autoStartEnabled = true ∧
    defaultConfig.showNotifications = true := by
  cases encAvail <;>
    exact ⟨rfl, rfl, rfl, rfl, rfl, rfl, rfl, rfl, rfl⟩

/-- C4: for an auth blob actually read from the UI process (window present,
lookup does not throw, blob parses), the snapshot returned by
`validateSession` is valid exactly when the blob's effective state carries a
user identity and a (JS-truthy, i.e. non-empty) refresh token; the access
token plays no role, so its absence does not invalidate the snapshot. -/
theorem c4_validity_rule (env : SessionEnv) (p : ParsedAuth)
    (hw : env.windowExists = true) (hl : env.lookupThrows = false)
    (ha : env.authStorage = .parsed p) :
    (validateSession env).isValid = true ↔
      ((effectiveState p).user.isSome = true ∧
        strTruthy (effectiveState p).refreshToken = true) := by
  unfold validateSession getSessionFromRenderer getSessionFromRendererBody
  rw [hw, hl, ha]
  unfold rendererScript
  by_cases hrt : strTruthy (effectiveState p).refreshToken = true
  · cases hu : (effectiveState p).user with
    | none => simp [hrt, hu, invalidSession]
    | some u => simp [hrt, hu, invalidSession]
  · have hrt' : strTruthy (effectiveState p).refreshToken = false := by
      revert hrt
      cases strTruthy (effectiveState p).refreshToken <;> simp
    simp [hrt', invalidSession]

/-- A concrete parsed auth blob with a user and a refresh token but no
access token (C4 witness input). -/
def parsedAuthNoAccess : ParsedAuth :=
  { state := some
      { user := some { id := "u1", email := "e", name := "n", role := "r" }
        accessToken := none
        refreshToken := some "tok" } }

/-- A concrete session environment delivering `parsedAuthNoAccess` (C4
witness input). -/
def envNoAccess : SessionEnv :=
  { windowExists := true, isLoading := false, lookupThrows := false
    authStorage := .parsed parsedAuthNoAccess }

/-- Witness for C4 at a concrete environment whose auth blob has a user and
a refresh token but *no* access token: the snapshot is valid. -/
theorem c4_validity_rule_witness :
    (validateSession envNoAccess).isValid = true := by
  exact (c4_validity_rule envNoAccess parsedAuthNoAccess rfl rfl rfl).mpr
    ⟨by decide, by decide⟩

/-- Concrete environment for the C5 counterexample: the UI window exists but
`webContents.isLoading()` is still true, the cross-process lookup succeeds,
and the auth blob is complete. -/
def envStillLoading : SessionEnv :=
  { windowExists := true, isLoading := true, lookupThrows := false
    authStorage := .parsed
      { state := some
          { user := some { id := "u1", email := "e", name := "n", role := "r" }
            accessToken := some "at"
            refreshToken := some "rt" } } }

/-- C5, claim as stated, refuted: the spec lists "the UI process has not
finished loading" among the failure modes for which `getSessionFromRenderer`
returns `{isValid: false}`, but the code merely computes and logs the
readiness flag and proceeds with the lookup: with the window still loading
and a successful lookup, a *valid* snapshot is returned. -/
theorem c5_counterexample :
    envStillLoading.isLoading = true ∧
    (getSessionFromRenderer envStillLoading).isValid = true := by
  exact ⟨rfl, rfl⟩

/-- C5 (amended): `getSessionFromRenderer` returns `{isValid: false}` when
the UI window does not exist or when the cross-process lookup throws, and a
rejected lookup is caught rather than propagated; the not-finished-loading
condition, however, is computed and logged but not acted on — the lookup
proceeds regardless of it. -/
theorem c5_lookup_failures (env env2 env3 : SessionEnv)
    (h1 : env.windowExists = false)
    (h2 : env2.lookupThrows = true)
    (h3 : getSessionFromRendererBody env3 = .error ()) :
    getSessionFromRenderer env = invalidSession ∧
    getSessionFromRenderer env2 = invalidSession ∧
    getSessionFromRenderer env3 = invalidSession := by
  refine ⟨?_, ?_, ?_⟩
  · unfold getSessionFromRenderer getSessionFromRendererBody
    rw [h1]
    rfl
  · unfold getSessionFromRenderer getSessionFromRendererBody
    rw [h2]
    cases h : env2.windowExists <;> simp
  · unfold getSessionFromRenderer
    rw [h3]

/-- Witness for C5 (amended) at concrete environments: a missing window, a
throwing lookup, and a body that rejects all map to the invalid snapshot. -/
theorem c5_lookup_failures_witness :
    getSessionFromRenderer
        { windowExists := false, isLoading := false, lookupThrows := false
          authStorage := .absent } = invalidSession ∧
    getSessionFromRenderer
        { windowExists := true, isLoading := false, lookupThrows := true
          authStorage := .absent } = invalidSession ∧
    getSessionFromRenderer
        { windowExists := true, isLoading := true, lookupThrows := true
          authStorage := .absent } = invalidSession := by
  exact c5_lookup_failures _ _ _ rfl rfl rfl

/-- C6: on every platform, when every underlying OS command fails (the
`execAsync` promise rejects for every command string), the detection
functions return the not-found results — `ssid`/`bssid` null for Wi-Fi and
`macAddress` null for Ethernet — rather than propagating an error: every
command failure is consumed by a transcribed `catch`. -/
theorem c6_command_failures_folded (p : Platform) (env : CmdEnv)
    (h : ∀ c, env c = .error ()) :
    getCurrentWifiLocal p env = { ssid := none, bssid := none } ∧
    getEthernetMacAddress p env = { macAddress := none, adapterName := none } := by
  cases p <;>
    simp [getCurrentWifiLocal, getEthernetMacAddress, h]

/-- Witness for C6: the all-failing command environment on Windows. -/
theorem c6_command_failures_folded_witness :
    getCurrentWifiLocal .win32 (fun _ => .error ()) = { ssid := none, bssid := none } ∧
    getEthernetMacAddress .win32 (fun _ => .error ()) =
      { macAddress := none, adapterName := none } := by
  exact c6_command_failures_folded .win32 (fun _ => .error ()) (fun _ => rfl)

/-- Command environment in which the macOS `airport -I` tool reports the
sentinel SSID value `none` (C7 counterexample input). -/
def envAirportNone : CmdEnv :=
  fun c => if c = airportCmd then .ok "SSID: none" else .error ()

/-- C7, claim as stated, refuted: the spec says that on *every* platform a
parsed SSID equal to the sentinel `"none"` is treated as not connected
(`ssid` null), but only the Windows parser applies that filter: on macOS the
`airport` output `SSID: none` is returned verbatim as a connected SSID. -/
theorem c7_counterexample :
    (getCurrentWifiLocal .darwin envAirportNone).ssid = some "none" ∧
    (getCurrentWifiLocal .darwin envAirportNone).ssid ≠ none := by
  constructor
  · decide
  · decide

/-- The SSID filter invariant of the Windows parser: `none`-sentinel and
empty values never reach the result. -/
def ssidFiltered (o : Option String) : Prop :=
  ∀ s, o = some s → s ≠ "" ∧ lowerStr s ≠ "none"

theorem winWifiBssidUpdate_ssid (wi : WifiInfo) (line : String) :
    (winWifiBssidUpdate wi line).ssid = wi.ssid := by
  unfold winWifiBssidUpdate
  cases hasKeyColon line.data ("BSSID".data) <;> simp
  cases winBssidCapture (lowerStr line).data <;> simp

theorem winWifiSsidUpdate_ssidFiltered (wi : WifiInfo) (line : String)
    (h : ssidFiltered wi.ssid) : ssidFiltered (winWifiSsidUpdate wi line).ssid := by
  unfold winWifiSsidUpdate
  cases hrest : ssidLineRest line with
  | none => exact h
  | some rest =>
    cases hprof : containsStr line "Profile" with
    | true => simpa using h
    | false =>
      simp only [Bool.false_eq_true, if_false]
      by_cases hcond : (jsTrim rest ≠ "" && lowerStr (jsTrim rest) ≠ "none") = true
      · simp only [hcond, if_true]
        intro s hs
        injection hs with hs
        subst hs
        simpa [Bool.and_eq_true, decide_eq_true_eq] using hcond
      · have hcond2 : (jsTrim rest ≠ "" && lowerStr (jsTrim rest) ≠ "none") = false := by
          revert hcond
          cases (jsTrim rest ≠ "" && lowerStr (jsTrim rest) ≠ "none") <;> simp
        simp only [hcond2, Bool.false_eq_true, if_false]
        exact h

theorem winWifiStep_ssidFiltered (wi : WifiInfo) (line : String)
    (h : ssidFiltered wi.ssid) : ssidFiltered (winWifiStep wi line).ssid := by
  unfold winWifiStep
  rw [show (winWifiBssidUpdate (winWifiSsidUpdate wi line) line).ssid =
        (winWifiSsidUpdate wi line).ssid from winWifiBssidUpdate_ssid _ _]
  exact winWifiSsidUpdate_ssidFiltered wi line h

theorem winWifiParse_ssidFiltered_fold (lines : List String) (wi : WifiInfo)
    (h : ssidFiltered wi.ssid) :
    ssidFiltered ((lines.foldl winWifiStep wi).ssid) := by
  induction lines generalizing wi with
  | nil => exact h
  | cons line rest ih =>
    exact ih (winWifiStep wi line) (winWifiStep_ssidFiltered wi line h)

/-- Command environment exposing a given `airport -I` stdout (used to state
the macOS pass-through half of C7). -/
def envAirport (out : String) : CmdEnv :=
  fun c => if c = airportCmd then .ok out else .error ()

/-- C7 (amended): only the Windows parser filters the sentinel — a
`win32` detection never reports an empty or `"none"` SSID (so on Windows an
empty/sentinel SSID is treated as not connected), whereas the macOS
`airport` path returns whatever SSID it parses, with no sentinel or
emptiness filter. -/
theorem c7_sentinel_filter (env : CmdEnv) (s : String) (out : String)
    (hwin : (getCurrentWifiLocal .win32 env).ssid = some s) :
    (s ≠ "" ∧ lowerStr s ≠ "none") ∧
    (getCurrentWifiLocal .darwin (envAirport out)).ssid =
      airportSsid (splitLines out) := by
  constructor
  · revert hwin
    unfold getCurrentWifiLocal
    cases henv : env netshCmd with
    | error e =>
      intro hwin
      simp at hwin
    | ok stdout =>
      intro hwin
      exact winWifiParse_ssidFiltered_fold (splitLines stdout) {} (by
        intro s' hs'
        simp [emptyStorage] at hs') s hwin
  · unfold getCurrentWifiLocal envAirport
    simp [airportParse]

/-- Witness for C7 (amended): a concrete Windows environment whose `netsh`
output carries SSID `Office-5G`, and the concrete `airport` output
`SSID: none` passed through unfiltered on macOS. -/
theorem c7_sentinel_filter_witness :
    ("Office-5G" ≠ "" ∧ lowerStr "Office-5G" ≠ "none") ∧
    (getCurrentWifiLocal .darwin (envAirport "SSID: none")).ssid =
      airportSsid (splitLines "SSID: none") := by
  exact c7_sentinel_filter
    (fun c => if c = netshCmd then .ok "    SSID                   : Office-5G" else .error ())
    "Office-5G" "SSID: none" (by decide)

/-- Abstract record of one parsed `ipconfig /all` adapter section:
`(name, mac, hasIpAddress)`. -/
abbrev AdapterRecord := String × String × Bool

/-- The keep condition of `saveAdapter` as a single predicate: non-empty
name and MAC, not a Wi-Fi adapter, not a loopback/virtual adapter. -/
def keepsAdapter (r : AdapterRecord) : Bool :=
  r.1 ≠ "" && r.2.1 ≠ "" && !isWifiAdapterName r.1 && !isVirtualAdapterName r.1

/-- The accumulation of `saveAdapter` over a stream of parsed adapter
records, as performed by the `ipconfig /all` loop (`main.ts` lines
619-677), starting from the empty `activeAdapters` array. -/
def winClassify (records : List AdapterRecord) : List (String × String) :=
  records.foldl (fun acc r => saveAdapter acc r.1 r.2.1 r.2.2) []

theorem saveAdapter_eq (acc : List (String × String)) (n m : String) (i : Bool) :
    saveAdapter acc n m i =
      if keepsAdapter (n, m, i) = true then
        (if i then (n, m) :: acc else acc ++ [(n, m)])
      else acc := by
  unfold saveAdapter keepsAdapter
  by_cases h1 : n = "" <;> by_cases h2 : m = "" <;>
    cases h3 : isWifiAdapterName n <;> cases h4 : isVirtualAdapterName n <;>
    simp [h1, h2, h3, h4]

theorem winClassify_foldl (records : List AdapterRecord)
    (acc : List (String × String)) :
    records.foldl (fun acc r => saveAdapter acc r.1 r.2.1 r.2.2) acc =
      ((records.filter (fun r => keepsAdapter r && r.2.2)).reverse.map
          (fun r => (r.1, r.2.1))) ++ acc ++
        ((records.filter (fun r => keepsAdapter r && !r.2.2)).map
          (fun r => (r.1, r.2.1))) := by
  induction records generalizing acc with
  | nil => simp
  | cons r t ih =>
    have hr : ((r.1, r.2.1, r.2.2) : AdapterRecord) = r := rfl
    rw [List.foldl_cons, saveAdapter_eq acc r.1 r.2.1 r.2.2, hr]
    by_cases hk : keepsAdapter r = true
    · by_cases hip : r.2.2 = true
      · rw [if_pos hk, if_pos hip]
        rw [ih ((r.1, r.2.1) :: acc)]
        simp [List.filter_cons, hk, hip]
      · have hip2 : r.2.2 = false := by
          revert hip
          cases r.2.2 <;> simp
        rw [if_pos hk, if_neg (by simp [hip2])]
        rw [ih (acc ++ [(r.1, r.2.1)])]
        simp [List.filter_cons, hk, hip2]
    · have hk2 : keepsAdapter r = false := by
        revert hk
        cases keepsAdapter r <;> simp
      rw [if_neg (by simp [hk2])]
      rw [ih acc]
      simp [List.filter_cons, hk2]

/-- A concrete `ipconfig /all` output with two Ethernet adapters, of which
only the second carries an assigned IPv4 address (C8 input). -/
def winTwoAdapterIpconfig : String :=
  "Ethernet adapter Ethernet:\n   Physical Address. . . . . . . . . : AA-BB-CC-DD-EE-01\n   Media State . . . . . . . . . . . : Media disconnected\n\nEthernet adapter Ethernet 2:\n   Physical Address. . . . . . . . . : AA-BB-CC-DD-EE-02\n   IPv4 Address. . . . . . . . . . . : 192.168.1.10(Preferred)\n"

/-- Command environment delivering `winTwoAdapterIpconfig` for
`ipconfig /all` (C8 input). -/
def ipconfigEnvTwo : CmdEnv :=
  fun c => if c = ipconfigCmd then .ok winTwoAdapterIpconfig else .error ()

set_option maxRecDepth 100000 in
/-- C8: the Windows Ethernet enumeration prefers adapters holding an
assigned IPv4 address — whenever some kept adapter record has an IP, the
selected head of the accumulated list is an IP-bearing kept record; in
particular with exactly two kept adapters of which only the second has an
IP, the second one's record is selected; and on the concrete two-adapter
`ipconfig /all` output the function returns the second adapter's MAC. -/
theorem c8_prefers_ip_adapters (records : List AdapterRecord)
    (n1 m1 n2 m2 : String)
    (hrec : ∃ r ∈ records, (keepsAdapter r && r.2.2) = true)
    (h1 : keepsAdapter (n1, m1, false) = true)
    (h2 : keepsAdapter (n2, m2, true) = true) :
    (∃ r ∈ records, (keepsAdapter r && r.2.2) = true ∧
        (winClassify records).head? = some (r.1, r.2.1)) ∧
    (winClassify [(n1, m1, false), (n2, m2, true)]).head? = some (n2, m2) ∧
    getEthernetMacAddress .win32 ipconfigEnvTwo =
      { macAddress := some "AA:BB:CC:DD:EE:02"
        adapterName := some "Ethernet adapter Ethernet 2" } := by
  refine ⟨?_, ?_, ?_⟩
  · obtain ⟨r0, hr0mem, hr0⟩ := hrec
    have hcls := winClassify_foldl records []
    have hlne : records.filter (fun r => keepsAdapter r && r.2.2) ≠ [] := by
      intro hnil
      have hmem : r0 ∈ records.filter (fun r => keepsAdapter r && r.2.2) :=
        List.mem_filter.mpr ⟨hr0mem, hr0⟩
      rw [hnil] at hmem
      cases hmem
    have hrevne : (records.filter (fun r => keepsAdapter r && r.2.2)).reverse ≠ [] := by
      simpa using hlne
    obtain ⟨a, tl, hcons⟩ := List.exists_cons_of_ne_nil hrevne
    have hamem : a ∈ records.filter (fun r => keepsAdapter r && r.2.2) := by
      have : a ∈ (records.filter (fun r => keepsAdapter r && r.2.2)).reverse := by
        rw [hcons]
        exact List.mem_cons_self a tl
      exact List.mem_reverse.mp this
    obtain ⟨hain, haprop⟩ := List.mem_filter.mp hamem
    refine ⟨a, hain, haprop, ?_⟩
    unfold winClassify
    rw [hcls, hcons]
    simp
  · simp only [winClassify, List.foldl_cons, List.foldl_nil, saveAdapter_eq]
    simp [h1, h2]
  · decide

/-- Witness for C8 at concrete adapter records and names. -/
theorem c8_prefers_ip_adapters_witness :
    (∃ r ∈ [(("eth0" : String), ("AA:BB:CC:DD:EE:0A" : String), true)],
        (keepsAdapter r && r.2.2) = true ∧
        (winClassify [(("eth0" : String), ("AA:BB:CC:DD:EE:0A" : String), true)]).head? =
          some (r.1, r.2.1)) ∧
    (winClassify [("Adapter A", "M1", false), ("Adapter B", "M2", true)]).head? =
      some ("Adapter B", "M2") ∧
    getEthernetMacAddress .win32 ipconfigEnvTwo =
      { macAddress := some "AA:BB:CC:DD:EE:02"
        adapterName := some "Ethernet adapter Ethernet 2" } := by
  exact c8_prefers_ip_adapters
    [("eth0", "AA:BB:CC:DD:EE:0A", true)] "Adapter A" "M1" "Adapter B" "M2"
    ⟨("eth0", "AA:BB:CC:DD:EE:0A", true), by decide, by decide⟩
    (by decide) (by decide)

theorem runObservations_burst (obs : List (Nat × String)) (st : DebounceState)
    (prev : String) (tl : Nat) (sl : String)
    (h0 : st.lastNetworkState = some prev)
    (hb : IsChangeBurst prev obs)
    (hl : obs.getLast? = some (tl, sl)) :
    runObservations obs st =
      { lastNetworkState := some sl
        timerDeadline := some (tl + debounceWindowMs)
        attemptCount := st.attemptCount } := by
  induction obs generalizing st prev with
  | nil => simp at hl
  | cons o rest ih =>
    obtain ⟨t, s⟩ := o
    obtain ⟨hs, hb2⟩ := hb
    have hstep : observeNetwork t s st =
        { lastNetworkState := some s
          timerDeadline := some (t + debounceWindowMs)
          attemptCount := st.attemptCount } := by
      unfold observeNetwork
      rw [h0]
      rw [if_pos]
      constructor
      · simp
      · intro hcontra
        injection hcontra with hcontra
        exact hs hcontra.symm
    cases rest with
    | nil =>
      have hts : (t, s) = (tl, sl) := by
        simpa using hl
      injection hts with ht hsl
      subst ht
      subst hsl
      unfold runObservations
      simp only [List.foldl_cons, List.foldl_nil]
      exact hstep
    | cons o2 rest2 =>
      have hl2 : (o2 :: rest2).getLast? = some (tl, sl) := by
        rw [List.getLast?_cons_cons] at hl
        exact hl
      have hrun := ih (observeNetwork t s st) s (by rw [hstep]) hb2 hl2
      unfold runObservations at hrun ⊢
      simp only [List.foldl_cons] at hrun ⊢
      rw [hrun, hstep]

/-- C9: starting with a known previous fingerprint and no pending timer, a
non-empty burst of genuine network changes, each arriving within the
debounce window of the previous one, makes *no* check-in attempt while the
burst lasts (each new observation restarts the single pending timer) and
leaves exactly one pending timer, due one window after the last
observation; checking the timer before that deadline does nothing, and at
the deadline it fires exactly one attempt and clears itself. -/
theorem c9_debounce_once (st : DebounceState) (prev : String)
    (obs : List (Nat × String)) (tl : Nat) (sl : String)
    (h0 : st.lastNetworkState = some prev)
    (_hpend : st.timerDeadline = none)
    (hb : IsChangeBurst prev obs)
    (_hw : WithinWindow obs)
    (hl : obs.getLast? = some (tl, sl)) :
    (runObservations obs st).attemptCount = st.attemptCount ∧
    (runObservations obs st).timerDeadline = some (tl + debounceWindowMs) ∧
    (∀ u, u < tl + debounceWindowMs →
      fireTimer u (runObservations obs st) = runObservations obs st) ∧
    (fireTimer (tl + debounceWindowMs) (runObservations obs st)).attemptCount =
      st.attemptCount + 1 ∧
    (fireTimer (tl + debounceWindowMs) (runObservations obs st)).timerDeadline =
      none := by
  have hrun := runObservations_burst obs st prev tl sl h0 hb hl
  rw [hrun]
  refine ⟨rfl, rfl, ?_, ?_, ?_⟩
  · intro u hu
    unfold fireTimer
    simp only []
    rw [if_neg]
    omega
  · unfold fireTimer
    simp
  · unfold fireTimer
    simp

/-- Witness for C9: previous fingerprint `"a"`, a two-change burst
`"b", "c"` at times 0 and 10 (within the 3000 ms window), one timer due at
3010, exactly one attempt fired at it. -/
theorem c9_debounce_once_witness :
    (runObservations [(0, "b"), (10, "c")]
        { lastNetworkState := some "a", timerDeadline := none, attemptCount := 0 }).attemptCount = 0 ∧
    (runObservations [(0, "b"), (10, "c")]
        { lastNetworkState := some "a", timerDeadline := none, attemptCount := 0 }).timerDeadline =
      some (10 + debounceWindowMs) ∧
    (∀ u, u < 10 + debounceWindowMs →
      fireTimer u (runObservations [(0, "b"), (10, "c")]
        { lastNetworkState := some "a", timerDeadline := none, attemptCount := 0 }) =
      runObservations [(0, "b"), (10, "c")]
        { lastNetworkState := some "a", timerDeadline := none, attemptCount := 0 }) ∧
    (fireTimer (10 + debounceWindowMs) (runObservations [(0, "b"), (10, "c")]
        { lastNetworkState := some "a", timerDeadline := none, attemptCount := 0 })).attemptCount = 0 + 1 ∧
    (fireTimer (10 + debounceWindowMs) (runObservations [(0, "b"), (10, "c")]
        { lastNetworkState := some "a", timerDeadline := none, attemptCount := 0 })).timerDeadline = none := by
  exact c9_debounce_once
    { lastNetworkState := some "a", timerDeadline := none, attemptCount := 0 }
    "a" [(0, "b"), (10, "c")] 10 "c" rfl rfl
    (by exact ⟨by decide, by decide, trivial⟩)
    (by exact ⟨by decide, by decide, trivial⟩)
    rfl

/-- C10: calling `setLastCheckInAttempt(timestamp)` with the `sessionId`
argument omitted does not leave the stored `lastCheckInSessionId` intact:
the update object carries the key with value `undefined`, the spread copies
it, and serialisation drops it — afterwards `lastCheckInSessionId` is
absent, `lastCheckInAttemptTimestamp` holds the new timestamp, and the
remaining fields (`lastNetworkUsed`, `lastTriggerAttempts`) are unchanged. -/
theorem c10_omitted_sessionId_clears (encAvail : Bool) (t : Nat) (d : StorageDisk) :
    (getStorage encAvail (setLastCheckInAttempt encAvail true t none d)).lastCheckInSessionId =
      none ∧
    (getStorage encAvail (setLastCheckInAttempt encAvail true t none d)).lastCheckInAttemptTimestamp =
      some (isoOf t) ∧
    (getStorage encAvail (setLastCheckInAttempt encAvail true t none d)).lastNetworkUsed =
      (getStorage encAvail d).lastNetworkUsed ∧
    (getStorage encAvail (setLastCheckInAttempt encAvail true t none d)).lastTriggerAttempts =
      (getStorage encAvail d).lastTriggerAttempts := by
  cases encAvail <;>
    simp [getStorage, setLastCheckInAttempt, updateStorage, writeStorage,
      readStorage, readStorageBody, mergeStorage]

end AutoAttendance
